import Mathlib

/-!
Shallow embedding of the cart state manager of `src/src/contexts/CartContext.tsx`
(repository gitHubvenkat/Ecommerce).

The manager keeps an in-memory list of cart items plus a busy flag
(`loading`), and mediates between UI actions and a Remote Cart API
(`api` imported from `../lib/supabase`, an external collaborator).
Each operation is an async function run to completion; we model one run
as a pure function from the pre-state to
`(result, post-state, list of remote calls issued)`, parameterised by
the session user (`Option String`, from the Authentication Provider)
and by the outcomes of the remote calls (`RemoteApi`, a record of the
responses the Remote Cart API gives during that run).

JS numbers are modelled as `Int` for quantities and `ℚ` for prices.
-/

namespace Cart

/-- Read-only product snapshot attached to a cart item for display
(`item.product` in the source). Only the price field matters to the
cart logic. -/
structure Product where
  id : String
  price : ℚ
  deriving Repr, DecidableEq

/-- A cart line item (`CartItem` from `../types`): row id, product id,
quantity, and an optional associated `Product` snapshot. -/
structure CartItem where
  id : String
  product_id : String
  quantity : Int
  product : Option Product
  deriving Repr, DecidableEq

/-- Local state of the cart manager: the `items` list (`useState<CartItem[]>([])`)
and the busy flag (`loading`, `useState(false)`). -/
structure CartState where
  items : List CartItem
  loading : Bool
  deriving Repr, DecidableEq

/-- The responses the Remote Cart API gives during one operation run.
Each field mirrors one endpoint of `api` in `../lib/supabase`
(consumed, not defined, by this component): a call either succeeds or
fails with an error message. -/
structure RemoteApi where
  getCartItems : String → Except String (List CartItem)
  addToCart : String → String → Int → Except String Unit
  updateCartItem : String → Int → Except String Unit
  removeFromCart : String → Except String Unit

/-- A remote call issued to the Remote Cart API, recorded in the trace
so that "no remote call is made" claims are statable. -/
inductive ApiCall where
  | getCartItems (userId : String)
  | addToCart (userId productId : String) (quantity : Int)
  | updateCartItem (itemId : String) (quantity : Int)
  | removeFromCart (itemId : String)
  deriving Repr, DecidableEq

/-- Embedding of `refreshCart` (source lines 33-48): with no session user it clears
`items` and returns at once (no remote call, `loading` untouched).
Otherwise it sets `loading`, reads the full cart via
`api.getCartItems(user.id)` and replaces `items` wholesale; a failure is
caught and only logged (never rethrown, so the function is total — its
promise always resolves), leaving `items` as they were; `finally` clears
`loading`. -/
def refreshCart (user : Option String) (api : RemoteApi) (s : CartState) :
    CartState × List ApiCall :=
  match user with
  | none => ({ s with items := [] }, [])
  | some uid =>
    let s1 := { s with loading := true }
    match api.getCartItems uid with
    | .ok cartItems => ({ s1 with items := cartItems, loading := false },
        [.getCartItems uid])
    | .error _ => ({ s1 with loading := false }, [.getCartItems uid])

/-- Embedding of `addToCart` (source lines 54-67): throws `'User must be logged in'`
synchronously when there is no session user (before `setLoading`, before
any remote call). Otherwise sets `loading`, calls
`api.addToCart(user.id, productId, quantity)`; on failure logs and
rethrows; on success awaits `refreshCart()`; `finally` clears `loading`. -/
def addToCart (user : Option String) (api : RemoteApi)
    (productId : String) (quantity : Int) (s : CartState) :
    Except String Unit × CartState × List ApiCall :=
  match user with
  | none => (.error "User must be logged in", s, [])
  | some uid =>
    let s1 := { s with loading := true }
    match api.addToCart uid productId quantity with
    | .error e => (.error e, { s1 with loading := false },
        [.addToCart uid productId quantity])
    | .ok _ =>
      let r := refreshCart user api s1
      (.ok (), { r.1 with loading := false },
        .addToCart uid productId quantity :: r.2)

/-- Embedding of `removeFromCart` (source lines 87-98): no session-user check. Sets
`loading`, calls `api.removeFromCart(itemId)`; on failure logs and
rethrows; on success awaits `refreshCart()`; `finally` clears `loading`. -/
def removeFromCart (user : Option String) (api : RemoteApi)
    (itemId : String) (s : CartState) :
    Except String Unit × CartState × List ApiCall :=
  let s1 := { s with loading := true }
  match api.removeFromCart itemId with
  | .error e => (.error e, { s1 with loading := false },
      [.removeFromCart itemId])
  | .ok _ =>
    let r := refreshCart user api s1
    (.ok (), { r.1 with loading := false }, .removeFromCart itemId :: r.2)

/-- Embedding of `updateQuantity` (source lines 69-85): if `quantity <= 0` it
delegates to `removeFromCart(itemId)` and returns. Otherwise (again no
session-user check) sets `loading`, calls
`api.updateCartItem(itemId, quantity)`; on failure logs and rethrows;
on success awaits `refreshCart()`; `finally` clears `loading`. -/
def updateQuantity (user : Option String) (api : RemoteApi)
    (itemId : String) (quantity : Int) (s : CartState) :
    Except String Unit × CartState × List ApiCall :=
  if quantity ≤ 0 then
    removeFromCart user api itemId s
  else
    let s1 := { s with loading := true }
    match api.updateCartItem itemId quantity with
    | .error e => (.error e, { s1 with loading := false },
        [.updateCartItem itemId quantity])
    | .ok _ =>
      let r := refreshCart user api s1
      (.ok (), { r.1 with loading := false },
        .updateCartItem itemId quantity :: r.2)

/-- Embedding of `clearCart` (source lines 100-102): `setItems([])` only — purely
local, synchronous, no remote call, `loading` untouched. -/
def clearCart (s : CartState) : CartState × List ApiCall :=
  ({ s with items := [] }, [])

/-- Embedding of `getTotalItems` (source lines 104-106):
`items.reduce((total, item) => total + item.quantity, 0)`. -/
def getTotalItems (items : List CartItem) : Int :=
  items.foldl (fun total item => total + item.quantity) 0

/-- The price used for one item in `getTotalPrice`:
`item.product?.price || 0` — `0` when the product snapshot is absent
(optional chaining yields `undefined`, which `|| 0` maps to `0`; the
only other falsy price, `0` itself, is mapped to `0` unchanged). -/
def itemPrice (item : CartItem) : ℚ :=
  match item.product with
  | some p => p.price
  | none => 0

/-- Embedding of `getTotalPrice` (source lines 108-113):
`items.reduce((total, item) => total + price * item.quantity, 0)` with
`price` as in `itemPrice`. -/
def getTotalPrice (items : List CartItem) : ℚ :=
  items.foldl (fun total item => total + itemPrice item * (item.quantity : ℚ)) 0

/-- The four operations of the cart manager that act on state, used to
quantify over "every operation". -/
inductive CartOp where
  | refresh
  | add (productId : String) (quantity : Int)
  | update (itemId : String) (quantity : Int)
  | remove (itemId : String)
  deriving Repr, DecidableEq

/-- Whether an operation is one of the three mutating operations. -/
def CartOp.isMutating : CartOp → Bool
  | .refresh => false
  | _ => true

/-- Run one operation against the session user, the remote responses and
the current state. `refresh` never rejects, so its result is `.ok ()`. -/
def runOp (user : Option String) (api : RemoteApi) (op : CartOp)
    (s : CartState) : Except String Unit × CartState × List ApiCall :=
  match op with
  | .refresh => let r := refreshCart user api s; (.ok (), r.1, r.2)
  | .add pid q => addToCart user api pid q s
  | .update iid q => updateQuantity user api iid q s
  | .remove iid => removeFromCart user api iid s

/-- A Remote Cart API on which every call succeeds and the cart read
returns the given list; used for concrete instantiations. -/
def apiOk (rows : List CartItem) : RemoteApi where
  getCartItems := fun _ => .ok rows
  addToCart := fun _ _ _ => .ok ()
  updateCartItem := fun _ _ => .ok ()
  removeFromCart := fun _ => .ok ()

/-- A Remote Cart API on which every write succeeds but the cart read
fails; used for concrete instantiations. -/
def apiReadFails : RemoteApi where
  getCartItems := fun _ => .error "network error"
  addToCart := fun _ _ _ => .ok ()
  updateCartItem := fun _ _ => .ok ()
  removeFromCart := fun _ => .ok ()

/-- A Remote Cart API on which every write fails with `"boom"`; used for
concrete instantiations. -/
def apiWriteFails : RemoteApi where
  getCartItems := fun _ => .ok []
  addToCart := fun _ _ _ => .error "boom"
  updateCartItem := fun _ _ => .error "boom"
  removeFromCart := fun _ => .error "boom"

/-- A sample cart item whose product snapshot is present. -/
def demoItem : CartItem :=
  { id := "i1", product_id := "p1", quantity := 2,
    product := some { id := "p1", price := 5 } }

/-- A sample cart item whose product snapshot is absent. -/
def demoOrphan : CartItem :=
  { id := "i2", product_id := "p2", quantity := 3, product := none }

/-- The initial state of the manager: empty items, busy flag off. -/
def initState : CartState := { items := [], loading := false }

/-- Generalised accumulator form of `getTotalItems`. -/
theorem foldl_quantity (l : List CartItem) :
    ∀ a : Int, l.foldl (fun total item => total + item.quantity) a
      = a + (l.map (fun item => item.quantity)).sum := by
  induction l with
  | nil => intro a; simp
  | cons x xs ih =>
    intro a
    simp only [List.foldl_cons, List.map_cons, List.sum_cons, ih]
    ring

/-- Generalised accumulator form of `getTotalPrice`. -/
theorem foldl_price (l : List CartItem) :
    ∀ a : ℚ, l.foldl (fun total item => total + itemPrice item * (item.quantity : ℚ)) a
      = a + (l.map (fun item => itemPrice item * (item.quantity : ℚ))).sum := by
  induction l with
  | nil => intro a; simp
  | cons x xs ih =>
    intro a
    simp only [List.foldl_cons, List.map_cons, List.sum_cons, ih]
    ring

/-- C3: for every session user, every remote behaviour, every state and
every quantity q ≤ 0, `updateQuantity(itemId, q)` is the very same
computation as `removeFromCart(itemId)`: same result, same post-state,
same remote calls. -/
theorem updateQuantity_nonpos_eq_remove (user : Option String)
    (api : RemoteApi) (itemId : String) (q : Int) (s : CartState)
    (hq : q ≤ 0) :
    updateQuantity user api itemId q s = removeFromCart user api itemId s := by
  simp [updateQuantity, hq]

theorem updateQuantity_nonpos_eq_remove_w :
    (0 : Int) ≤ 0 ∧
    updateQuantity (some "u") (apiOk []) "i1" 0 initState
      = removeFromCart (some "u") (apiOk []) "i1" initState :=
  ⟨by decide, updateQuantity_nonpos_eq_remove _ _ _ _ _ (by decide)⟩

/-- C4: when a refresh is invoked with a session user present and the
remote `getCartItems` call fails, the post-state keeps the prior item
list unchanged (only the busy flag, raised at the start, ends cleared),
and no failure is propagated: `refreshCart` returns a plain state — the
source catches the error without rethrowing, so its promise always
resolves. -/
theorem refreshCart_failure_keeps_items (uid : String) (api : RemoteApi)
    (s : CartState) (e : String) (h : api.getCartItems uid = .error e) :
    refreshCart (some uid) api s
      = ({ s with loading := false }, [.getCartItems uid]) := by
  simp [refreshCart, h]

theorem refreshCart_failure_keeps_items_w :
    apiReadFails.getCartItems "u" = .error "network error" ∧
    refreshCart (some "u") apiReadFails { items := [demoOrphan], loading := false }
      = ({ items := [demoOrphan], loading := false }, [.getCartItems "u"]) :=
  ⟨rfl, refreshCart_failure_keeps_items _ _ _ _ rfl⟩

/-- C5: a refresh with no session user empties the item list, issues no
remote call, and leaves every other component — in particular the busy
flag — exactly as it was. -/
theorem refreshCart_no_user (api : RemoteApi) (s : CartState) :
    refreshCart none api s = ({ s with items := [] }, []) := rfl

/-- C6: `getTotalItems` returns exactly the sum of the `quantity` fields
of the items (0 for the empty list). It is a pure function of the item
list — it takes the state as input and returns only a number, so it
cannot modify anything. -/
theorem getTotalItems_eq_sum (items : List CartItem) :
    getTotalItems items = (items.map (fun item => item.quantity)).sum := by
  simpa [getTotalItems] using foldl_quantity items 0

/-- C7: `getTotalPrice` returns the sum over the items of
(price × quantity), and an item whose `Product` snapshot is absent
contributes exactly 0 (no error is possible: `itemPrice` is total).
Pure for the same structural reason as `getTotalItems`. -/
theorem getTotalPrice_eq_sum (items : List CartItem) :
    getTotalPrice items
      = (items.map (fun item => itemPrice item * (item.quantity : ℚ))).sum ∧
    ∀ item : CartItem, item.product = none
      → itemPrice item * (item.quantity : ℚ) = 0 := by
  constructor
  · simpa [getTotalPrice] using foldl_price items 0
  · intro item h
    simp [itemPrice, h]

theorem getTotalPrice_eq_sum_w :
    getTotalPrice [demoItem, demoOrphan]
      = ([demoItem, demoOrphan].map
          (fun item => itemPrice item * (item.quantity : ℚ))).sum ∧
    itemPrice demoOrphan * ((demoOrphan.quantity : Int) : ℚ) = 0 :=
  ⟨(getTotalPrice_eq_sum [demoItem, demoOrphan]).1,
   (getTotalPrice_eq_sum [demoItem, demoOrphan]).2 demoOrphan rfl⟩

/-- C8: `clearCart` empties the item list, issues no remote call (so the
server-side cart rows cannot change), and leaves the busy flag exactly
as it was. -/
theorem clearCart_local_only (s : CartState) :
    (clearCart s).1.items = [] ∧ (clearCart s).1.loading = s.loading ∧
    (clearCart s).2 = [] :=
  ⟨rfl, rfl, rfl⟩

/-- C9: starting from a quiescent state (busy flag off — which, under
the sequential execution this embedding models, holds whenever an
operation begins), every operation leaves the busy flag off on
completion, whatever the session user, the remote outcomes, and whether
the run succeeded or failed. All paths that raise the flag clear it in
`finally`; the two early returns that never raise it (refresh with no
user, `addToCart` with no user) leave it as it was. -/
theorem busy_flag_cleared (user : Option String) (api : RemoteApi)
    (op : CartOp) (s : CartState) (h : s.loading = false) :
    ((runOp user api op s).2.1).loading = false := by
  cases op with
  | refresh =>
    cases user with
    | none => simpa [runOp, refreshCart] using h
    | some uid =>
      cases hg : api.getCartItems uid <;> simp [runOp, refreshCart, hg]
  | add pid q =>
    cases user with
    | none => simpa [runOp, addToCart] using h
    | some uid =>
      cases ha : api.addToCart uid pid q <;> simp [runOp, addToCart, ha]
  | update iid q =>
    by_cases hq : q ≤ 0
    · cases hr : api.removeFromCart iid <;>
        simp [runOp, updateQuantity, hq, removeFromCart, hr]
    · cases hu : api.updateCartItem iid q <;>
        simp [runOp, updateQuantity, hq, hu]
  | remove iid =>
    cases hr : api.removeFromCart iid <;> simp [runOp, removeFromCart, hr]

theorem busy_flag_cleared_w :
    initState.loading = false ∧
    ((runOp (some "u") apiReadFails (.add "p1" 1) initState).2.1).loading = false :=
  ⟨rfl, busy_flag_cleared _ _ _ _ rfl⟩

/-- C10: for each of the three mutating operations, if the remote write
call itself fails, the item list in the post-state is exactly the prior
one (the subsequent refresh is never attempted, so nothing was
re-fetched), only the busy flag has been raised and cleared, no further
remote call is issued, and the error is re-raised to the caller. -/
theorem write_failure_keeps_items (user : Option String) (api : RemoteApi)
    (s : CartState) (e : String) :
    (∀ uid pid q, api.addToCart uid pid q = .error e →
      addToCart (some uid) api pid q s
        = (.error e, { s with loading := false }, [.addToCart uid pid q])) ∧
    (∀ iid q, 0 < q → api.updateCartItem iid q = .error e →
      updateQuantity user api iid q s
        = (.error e, { s with loading := false }, [.updateCartItem iid q])) ∧
    (∀ iid, api.removeFromCart iid = .error e →
      removeFromCart user api iid s
        = (.error e, { s with loading := false }, [.removeFromCart iid])) := by
  refine ⟨?_, ?_, ?_⟩
  · intro uid pid q h
    simp [addToCart, h]
  · intro iid q hq h
    simp [updateQuantity, not_le.mpr hq, h]
  · intro iid h
    simp [removeFromCart, h]

theorem write_failure_keeps_items_w :
    apiWriteFails.addToCart "u" "p1" 1 = .error "boom" ∧
    addToCart (some "u") apiWriteFails "p1" 1 { items := [demoOrphan], loading := false }
      = (.error "boom", { items := [demoOrphan], loading := false },
          [.addToCart "u" "p1" 1]) :=
  ⟨rfl, (write_failure_keeps_items (some "u") apiWriteFails
      { items := [demoOrphan], loading := false } "boom").1 "u" "p1" 1 rfl⟩

/-- C1 as stated is false: `addToCart` completes successfully (its
promise resolves — the post-mutation refresh swallows its own read
failure), yet the local item set stays `[]` while the Remote Cart API,
now holding the row the successful write created, would return
`[demoItem]` to a fresh refresh. Concrete input: user `"u"`, product
`"p1"`, quantity 1, empty initial state, a remote whose write succeeds
and whose read fails during the operation but succeeds afterwards. -/
theorem mutation_drift_cex :
    (addToCart (some "u") apiReadFails "p1" 1 initState).1 = .ok () ∧
    (addToCart (some "u") apiReadFails "p1" 1 initState).2.1.items = [] ∧
    ((refreshCart (some "u") (apiOk [demoItem])
        ((addToCart (some "u") apiReadFails "p1" 1 initState).2.1)).1).items
      = [demoItem] ∧
    ([] : List CartItem) ≠ [demoItem] :=
  ⟨rfl, rfl, rfl, by simp⟩

/-- C1 amended: after a mutating operation that completes successfully
and whose post-mutation refresh read also succeeded (returning `rows`),
the local item set is exactly `rows` — exactly what a fresh refresh
against the same remote returns (no drift). -/
theorem mutation_success_no_drift (uid : String) (api : RemoteApi)
    (op : CartOp) (s : CartState) (rows : List CartItem)
    (hmut : op.isMutating = true)
    (hget : api.getCartItems uid = .ok rows)
    (hok : (runOp (some uid) api op s).1 = .ok ()) :
    (runOp (some uid) api op s).2.1.items = rows ∧
    ((refreshCart (some uid) api ((runOp (some uid) api op s).2.1)).1).items
      = rows := by
  have hfresh : ∀ t : CartState, ((refreshCart (some uid) api t).1).items = rows := by
    intro t
    simp [refreshCart, hget]
  refine ⟨?_, hfresh _⟩
  cases op with
  | refresh => simp [CartOp.isMutating] at hmut
  | add pid q =>
    cases ha : api.addToCart uid pid q with
    | error e => simp [runOp, addToCart, ha] at hok
    | ok _ => simp [runOp, addToCart, ha, hfresh]
  | update iid q =>
    by_cases hq : q ≤ 0
    · cases hr : api.removeFromCart iid with
      | error e => simp [runOp, updateQuantity, hq, removeFromCart, hr] at hok
      | ok _ => simp [runOp, updateQuantity, hq, removeFromCart, hr, hfresh]
    · cases hu : api.updateCartItem iid q with
      | error e => simp [runOp, updateQuantity, hq, hu] at hok
      | ok _ => simp [runOp, updateQuantity, hq, hu, hfresh]
  | remove iid =>
    cases hr : api.removeFromCart iid with
    | error e => simp [runOp, removeFromCart, hr] at hok
    | ok _ => simp [runOp, removeFromCart, hr, hfresh]

theorem mutation_success_no_drift_w :
    CartOp.isMutating (.add "p1" 1) = true ∧
    (apiOk [demoItem]).getCartItems "u" = .ok [demoItem] ∧
    (runOp (some "u") (apiOk [demoItem]) (.add "p1" 1) initState).1 = .ok () ∧
    ((runOp (some "u") (apiOk [demoItem]) (.add "p1" 1) initState).2.1.items
        = [demoItem] ∧
      ((refreshCart (some "u") (apiOk [demoItem])
          ((runOp (some "u") (apiOk [demoItem]) (.add "p1" 1) initState).2.1)).1).items
        = [demoItem]) :=
  ⟨rfl, rfl, rfl, mutation_success_no_drift "u" _ _ _ _ rfl rfl rfl⟩

/-- C2 as stated is false for `updateQuantity` and `removeFromCart`:
neither checks the session user. Concrete input: with no session user,
`removeFromCart("i1")` issues the remote delete call and resolves
successfully (no "not authenticated" error), and
`updateQuantity("i1", 5)` issues the remote update call and resolves
successfully. -/
theorem no_user_mutation_cex :
    (removeFromCart none (apiOk []) "i1" initState).1 = .ok () ∧
    (removeFromCart none (apiOk []) "i1" initState).2.2
      = [.removeFromCart "i1"] ∧
    (updateQuantity none (apiOk []) "i1" 5 initState).1 = .ok () ∧
    (updateQuantity none (apiOk []) "i1" 5 initState).2.2
      = [.updateCartItem "i1" 5] :=
  ⟨rfl, rfl, rfl, rfl⟩

/-- C2 amended: only `addToCart` guards on the session user. Invoked
with no session user it raises `'User must be logged in'` synchronously,
before any remote call is issued and before any state change
(`updateQuantity` and `removeFromCart` perform no such check). -/
theorem add_no_user_rejects (api : RemoteApi) (productId : String)
    (quantity : Int) (s : CartState) :
    addToCart none api productId quantity s
      = (.error "User must be logged in", s, []) := rfl

end Cart
